import Mathlib

/-!
Verification of the client-side session / query-cache coordination logic of the
full-stack-fastapi-template frontend: the session store (`utils/auth.ts`), the
authenticated query wrapper (`hooks/useCustomQuery.ts`), the auth/session
controller (`hooks/useAuth.ts`) and the paginated items query parameters
(`useItems`).  TypeScript values of type `string | null` / `number | undefined`
are embedded as `Option String` / `Option Int`; the single-threaded, effectful
hook bodies are embedded as explicit state-passing functions on an application
state record.
-/

namespace FrontendAuth

/-! ## Session store (`utils/auth.ts`)

The auth utils touch exactly one `localStorage` key, `"authState"`, so the
browser storage is embedded as a record holding that one slot. -/

/-- Browser `localStorage`, restricted to the single key `"authState"` used by
the auth utils.  `none` means the key is absent. -/
structure LocalStorage where
  authState : Option String
  deriving DecidableEq, Repr

/-- `getLocalAuthState(): AuthState` — `return localStorage.getItem("authState")`. -/
def getLocalAuthState (ls : LocalStorage) : Option String :=
  ls.authState

/-- `updateLocalAuthState(newState: AuthState)` — `removeItem` when `newState`
is `null`, otherwise `setItem("authState", newState)`. -/
def updateLocalAuthState (newState : Option String) (ls : LocalStorage) : LocalStorage :=
  match newState with
  | none => { ls with authState := none }
  | some t => { ls with authState := some t }

/-- `getAuthToken()` — `return getLocalAuthState()`. -/
def getAuthToken (ls : LocalStorage) : Option String :=
  getLocalAuthState ls

/-- `isLoggedIn()` — `return getAuthToken() != null` (loose `!=`: only
`null`/`undefined` compare equal to `null`, so the empty string counts as
logged in). -/
def isLoggedIn (ls : LocalStorage) : Bool :=
  (getAuthToken ls).isSome

/-! ## Query cache

Modelled from the spec: the tanstack query-cache library is an external
dependency, not part of this repository.  Per the spec's data model and
glossary, a cache maps structurally-compared query keys to entries;
`invalidateQueries` marks matching entries stale (they remain present),
`removeQueries` drops matching entries entirely. -/

/-- A query key: an ordered sequence of string segments
(e.g. `["users", "current"]`), compared structurally. -/
abbrev QueryKey := List String

/-- Modelled from the spec: the cached state the policies act on — an entry is
either absent or present with a staleness flag. -/
structure CacheEntry where
  stale : Bool
  deriving DecidableEq, Repr

/-- The query cache: an association list from query keys to entries. -/
abbrev QueryCache := List (QueryKey × CacheEntry)

/-- Modelled from the spec: `queryClient.invalidateQueries({queryKey})` marks
every entry for the key stale; entries stay present. -/
def invalidateQueries (k : QueryKey) : QueryCache → QueryCache
  | [] => []
  | (k', e) :: rest =>
      if k' = k then (k', { e with stale := true }) :: invalidateQueries k rest
      else (k', e) :: invalidateQueries k rest

/-- Modelled from the spec: `queryClient.removeQueries({queryKey})` drops every
entry for the key, value and in-flight state included. -/
def removeQueries (k : QueryKey) : QueryCache → QueryCache
  | [] => []
  | (k', e) :: rest =>
      if k' = k then removeQueries k rest else (k', e) :: removeQueries k rest

/-- Look up the cached entry for a key (`none` = no cached state). -/
def lookupEntry (k : QueryKey) : QueryCache → Option CacheEntry
  | [] => none
  | (k', e) :: rest => if k' = k then some e else lookupEntry k rest

/-! ## Application state

One record for the process-wide state the hooks mutate: the storage-backed
session token, the (single, ambient) query-cache client, the navigation log
(`navigate({ to })` calls, in order) and a network-call counter. -/

/-- The state threaded through the embedded hook bodies. -/
structure AppState where
  storage : LocalStorage
  cache : QueryCache
  navLog : List String
  networkCalls : Nat
  deriving DecidableEq, Repr

/-! ## Query-key builders (`queries/users.ts`) -/

namespace usersKeys

/-- `usersKeys.all = ["users"]`. -/
def all : List String := ["users"]

/-- `usersKeys.current() = [...usersKeys.all, "current"]`. -/
def current : QueryKey := all ++ ["current"]

end usersKeys

/-! ## Auth controller: `logout` (`hooks/useAuth.ts`, lines 77–81)

`logout` runs `updateLocalAuthState(null)`, then
`queryClient.invalidateQueries({ queryKey: usersKeys.current() })`, then
`navigate({ to: "/login" })`. -/

/-- The `logout` closure of `useAuth`, as a state transformer. -/
def logout (s : AppState) : AppState :=
  let s1 := { s with storage := updateLocalAuthState none s.storage }
  let s2 := { s1 with cache := invalidateQueries usersKeys.current s1.cache }
  { s2 with navLog := s2.navLog ++ ["/login"] }

/-! ## Authenticated query wrapper (`hooks/useCustomQuery.ts`) -/

/-- The default retry predicate of `useCustomQuery` (lines 25–28):
`error.status === 401 ? false : retryCount <= 3`.  The error's status may be
absent (`undefined`), hence `Option Nat`. -/
def retryPredicate (retryCount : Nat) (status : Option Nat) : Bool :=
  if status = some 401 then false else retryCount ≤ 3

/-- The caller-supplied options object of `useCustomQuery` (the fields this
logic reads): the query key, and the optional `enabled` member, `none` when the
caller leaves it out. -/
structure CustomQueryOptions where
  queryKey : QueryKey
  enabled : Option Bool := none
  deriving DecidableEq, Repr

/-- The `enabled` value of the query built by `useCustomQuery`:
`{ enabled: isLoggedIn(), ..., ...options }` — the spread of `options` comes
after the default, so a caller-supplied `enabled` overrides the gate. -/
def resolvedEnabled (opts : CustomQueryOptions) (ls : LocalStorage) : Bool :=
  opts.enabled.getD (isLoggedIn ls)

/-- Modelled from the spec: running the query fetch.  An enabled query performs
one network call and repopulates the cache entry for its key; a disabled query
does nothing (no network call, no cached value update). -/
def runQueryFetch (opts : CustomQueryOptions) (s : AppState) : AppState :=
  if resolvedEnabled opts s.storage then
    { s with
      networkCalls := s.networkCalls + 1
      cache := (opts.queryKey, { stale := false }) :: removeQueries opts.queryKey s.cache }
  else s

/-- The `invalidate()` operation defined inside `useCustomQuery` (lines 34–36):
`_queryClient.invalidateQueries({ queryKey: options.queryKey })`. -/
def wrapperInvalidate (opts : CustomQueryOptions) (s : AppState) : AppState :=
  { s with cache := invalidateQueries opts.queryKey s.cache }

/-- The `remove()` operation defined inside `useCustomQuery` (lines 38–40):
`_queryClient.removeQueries({ queryKey: options.queryKey })`. -/
def wrapperRemove (opts : CustomQueryOptions) (s : AppState) : AppState :=
  { s with cache := removeQueries opts.queryKey s.cache }

/-- The 401-reaction effect of `useCustomQuery` (lines 42–50), run once per
distinct observed error: if `error?.status === 401 && isLoggedIn()` then
`invalidate().then(() => remove()).then(logout)`; else if
`error?.status === 401 && !isLoggedIn()` then `remove()`; else nothing.
`errStatus` is the observed error's status, `none` when no error (or a
status-less error) is observed. -/
def use401Effect (queryKey : QueryKey) (errStatus : Option Nat) (s : AppState) : AppState :=
  if errStatus = some 401 ∧ isLoggedIn s.storage then
    logout { s with cache := removeQueries queryKey (invalidateQueries queryKey s.cache) }
  else if errStatus = some 401 ∧ ¬ isLoggedIn s.storage then
    { s with cache := removeQueries queryKey s.cache }
  else s

/-- Modelled from the spec: the fields of the read result returned by the
query library's `useQuery` (the spec names `data`, `isLoading`, `isError`,
`error`); the locally defined `remove` of `useCustomQuery` is not among them. -/
def useQueryResultKeys : List String := ["data", "isLoading", "isError", "error"]

/-- The keys of the object `useCustomQuery` returns (line 52):
`return { error, ...query, invalidate }` where `query` is the `useQuery`
result destructured without `error`. -/
def useCustomQueryReturnKeys : List String :=
  "error" :: (useQueryResultKeys.filter (fun f => f ≠ "error")) ++ ["invalidate"]

/-! ## Login error handling (`hooks/useAuth.ts`, lines 57–75)

The remote API error envelope carries `body.detail`, which is a string or an
array of structured sub-errors; a transport-level failure is an `AxiosError`
carrying only a `message`. -/

/-- The `detail` member of an API error body: a string, or an array of
structured sub-errors (embedded by their rendered messages, which the code
never inspects). -/
inductive ErrDetail where
  | str (s : String)
  | arr (items : List String)
  deriving DecidableEq, Repr

/-- An error observed by `loginMutation.onError`: an API error with a body
`detail`, or a transport-level `AxiosError` with a message. -/
inductive LoginErr where
  | api (detail : ErrDetail)
  | axios (message : String)
  deriving DecidableEq, Repr

/-- The extraction in `onError` (lines 62–73): `errDetail = err.body?.detail`;
if the error is an `AxiosError`, `errDetail = err.message`; if `errDetail` is
an array, `errDetail = "Something went wrong"`. -/
def extractLoginErrDetail (e : LoginErr) : String :=
  match e with
  | .axios m => m
  | .api (.str s) => s
  | .api (.arr _) => "Something went wrong"

/-- The state of the `useAuth` hook: the shared application state plus the
`error` field held in `useState` (`none` = no current error). -/
structure AuthHookState where
  app : AppState
  error : Option String
  deriving DecidableEq, Repr

/-- `loginMutation.onError` as a state transformer: it only calls
`setError(errDetail)`; the token, cache and navigation are untouched (the
success-path `updateLocalAuthState`/`navigate` never ran). -/
def loginMutationOnError (e : LoginErr) (st : AuthHookState) : AuthHookState :=
  { st with error := some (extractLoginErrDetail e) }

/-- `resetError: () => setError(null)` (line 90). -/
def resetError (st : AuthHookState) : AuthHookState :=
  { st with error := none }

/-! ## Paginated items query parameters (`useItems`, unnamed source file) -/

/-- The `QueryOptions` object of `useItems` as it exists at runtime: `limit`
always present, `page` and `skip` optional (`none` = `undefined`).  The
TypeScript union type additionally rules out the shape where both `page` and
`skip` are absent. -/
structure ItemsQueryOptions where
  limit : Int
  page : Option Int := none
  skip : Option Int := none
  deriving DecidableEq, Repr

/-- The resolved `{ skip, limit }` pair.  `skip` is `Option Int` because the
JavaScript expression `(page - 1) * limit` is `NaN` when `page` is
`undefined`, a shape the TypeScript type forbids; `none` embeds that
unreachable outcome. -/
structure ItemsQueryParams where
  skip : Option Int
  limit : Int
  deriving DecidableEq, Repr

/-- `getItemsQueryParams({ limit, page, skip })` —
`return { skip: skip ?? (page - 1) * limit, limit }`.  The match mirrors the
nullish-coalescing: a present `skip` short-circuits, otherwise
`(page - 1) * limit` is computed. -/
def getItemsQueryParams (o : ItemsQueryOptions) : ItemsQueryParams :=
  { skip :=
      match o.skip with
      | some sk => some sk
      | none => o.page.map (fun p => (p - 1) * o.limit)
    limit := o.limit }

/-! ## Helper lemmas about the cache operations -/

theorem lookupEntry_removeQueries (k j : QueryKey) (c : QueryCache) :
    lookupEntry k (removeQueries j c) = if j = k then none else lookupEntry k c := by
  induction c with
  | nil => simp [removeQueries, lookupEntry]
  | cons p rest ih =>
    obtain ⟨k', e⟩ := p
    by_cases hj : k' = j
    · subst hj
      by_cases hk : k' = k
      · subst hk
        simp [removeQueries, ih]
      · simp [removeQueries, lookupEntry, hk, ih]
    · by_cases hk : k' = k
      · subst hk
        have hjk : ¬ j = k' := fun h => hj h.symm
        simp [removeQueries, lookupEntry, hj, hjk]
      · simp [removeQueries, lookupEntry, hj, hk, ih]

theorem lookupEntry_removeQueries_self (k : QueryKey) (c : QueryCache) :
    lookupEntry k (removeQueries k c) = none := by
  induction c with
  | nil => rfl
  | cons p rest ih =>
    obtain ⟨k', e⟩ := p
    by_cases h : k' = k
    · simp [removeQueries, h, ih]
    · simp [removeQueries, lookupEntry, h, ih]

theorem lookupEntry_invalidateQueries (k j : QueryKey) (c : QueryCache) :
    lookupEntry k (invalidateQueries j c) =
      if j = k then Option.map (fun e => { e with stale := true }) (lookupEntry k c)
      else lookupEntry k c := by
  induction c with
  | nil => simp [invalidateQueries, lookupEntry]
  | cons p rest ih =>
    obtain ⟨k', e⟩ := p
    by_cases hj : k' = j
    · subst hj
      by_cases hk : k' = k
      · subst hk
        simp [invalidateQueries, lookupEntry]
      · simp [invalidateQueries, lookupEntry, hk, ih]
    · by_cases hk : k' = k
      · subst hk
        have hjk : ¬ j = k' := fun h => hj h.symm
        simp [invalidateQueries, lookupEntry, hj, hjk]
      · simp [invalidateQueries, lookupEntry, hj, hk, ih]

theorem lookupEntry_invalidateQueries_of_none (k j : QueryKey) (c : QueryCache)
    (h : lookupEntry k c = none) : lookupEntry k (invalidateQueries j c) = none := by
  rw [lookupEntry_invalidateQueries, h]
  split <;> rfl

theorem lookupEntry_invalidateQueries_isSome (k j : QueryKey) (c : QueryCache) :
    (lookupEntry k (invalidateQueries j c)).isSome = (lookupEntry k c).isSome := by
  rw [lookupEntry_invalidateQueries]
  split <;> simp

theorem lookupEntry_invalidateQueries_self (k : QueryKey) (c : QueryCache) (e : CacheEntry)
    (h : lookupEntry k c = some e) :
    lookupEntry k (invalidateQueries k c) = some { e with stale := true } := by
  rw [lookupEntry_invalidateQueries, h]
  simp

theorem invalidateQueries_idem (k : QueryKey) (c : QueryCache) :
    invalidateQueries k (invalidateQueries k c) = invalidateQueries k c := by
  induction c with
  | nil => rfl
  | cons p rest ih =>
    obtain ⟨k', e⟩ := p
    by_cases h : k' = k
    · subst h
      simp [invalidateQueries, ih]
    · simp [invalidateQueries, h, ih]

/-! ## Concrete states and options used to evaluate the claims -/

/-- An authenticated state with one fresh cached entry for the key
`["items"]`. -/
def s401Auth : AppState :=
  { storage := { authState := some "tok" }
    cache := [(["items"], { stale := false })]
    navLog := []
    networkCalls := 0 }

/-- An unauthenticated state with one fresh cached entry for the key
`["items"]`. -/
def s401Anon : AppState :=
  { storage := { authState := none }
    cache := [(["items"], { stale := false })]
    navLog := []
    networkCalls := 0 }

/-- An authenticated state holding a fresh cached current-user entry. -/
def c2StartState : AppState :=
  { storage := { authState := some "tok" }
    cache := [(usersKeys.current, { stale := false })]
    navLog := []
    networkCalls := 0 }

/-- An unauthenticated state with an empty cache. -/
def c4StartState : AppState :=
  { storage := { authState := none }
    cache := []
    navLog := []
    networkCalls := 0 }

/-- A caller options object that supplies `enabled: true` itself. -/
def overrideEnabledOpts : CustomQueryOptions :=
  { queryKey := ["items"], enabled := some true }

/-- A caller options object that leaves `enabled` out. -/
def gatedOpts : CustomQueryOptions :=
  { queryKey := ["items"] }

/-! ## Claim theorems -/

/-- C5: for every string token `t`, after `updateLocalAuthState(t)` the getter
returns `t` and `isLoggedIn()` is true; after `updateLocalAuthState(null)` the
getter returns `null` and `isLoggedIn()` is false, and clearing is idempotent
(clearing twice leaves the same state). -/
theorem sessionStore_set_clear_spec (ls : LocalStorage) (t : String) :
    getLocalAuthState (updateLocalAuthState (some t) ls) = some t ∧
    isLoggedIn (updateLocalAuthState (some t) ls) = true ∧
    getLocalAuthState (updateLocalAuthState none ls) = none ∧
    isLoggedIn (updateLocalAuthState none ls) = false ∧
    updateLocalAuthState none (updateLocalAuthState none ls) = updateLocalAuthState none ls :=
  ⟨rfl, rfl, rfl, rfl, rfl⟩

/-- C10: for every string `t`, the empty string included, after
`updateLocalAuthState(t)` the store holds `t` and `isLoggedIn()` is true;
`isLoggedIn()` is false exactly when the stored value is absent, so an
empty-string token still counts as authenticated. -/
theorem isLoggedIn_iff_token_present (ls : LocalStorage) (t : String) :
    getLocalAuthState (updateLocalAuthState (some t) ls) = some t ∧
    isLoggedIn (updateLocalAuthState (some t) ls) = true ∧
    isLoggedIn (updateLocalAuthState (some "") ls) = true ∧
    (isLoggedIn ls = false ↔ getLocalAuthState ls = none) := by
  refine ⟨rfl, rfl, rfl, ?_⟩
  cases h : ls.authState <;> simp [isLoggedIn, getAuthToken, getLocalAuthState, h]

/-- C3: the retry predicate of `useCustomQuery` returns `false` for every
error whose status is exactly 401, for all retry counts; for an error with any
other status it retries exactly while `retryCount <= 3`. -/
theorem retryPredicate_spec (n : Nat) (s : Option Nat) :
    retryPredicate n (some 401) = false ∧
    (s ≠ some 401 → (retryPredicate n s = true ↔ n ≤ 3)) := by
  constructor
  · simp [retryPredicate]
  · intro h
    simp [retryPredicate, h]

/-- Witness for C3 at `retryCount = 2`, status 500. -/
theorem retryPredicate_spec_witness :
    retryPredicate 2 (some 401) = false ∧ (retryPredicate 2 (some 500) = true ↔ 2 ≤ 3) :=
  ⟨(retryPredicate_spec 2 (some 500)).1,
   (retryPredicate_spec 2 (some 500)).2 (by decide)⟩

/-- C6: for every options object, a provided `skip` (including `skip = 0`)
takes precedence over any `page`; with only `page` provided the result is
`{skip: (page - 1) * limit, limit}`; in particular `{page: 1, limit: 5}` gives
`{skip: 0, limit: 5}`, `{page: 3, limit: 5}` gives `{skip: 10, limit: 5}`, and
`{skip: 7, limit: 5, page: 99}` gives `{skip: 7, limit: 5}`. -/
theorem getItemsQueryParams_spec (o : ItemsQueryOptions) :
    (∀ sk, o.skip = some sk →
      getItemsQueryParams o = { skip := some sk, limit := o.limit }) ∧
    (∀ p, o.skip = none → o.page = some p →
      getItemsQueryParams o = { skip := some ((p - 1) * o.limit), limit := o.limit }) ∧
    getItemsQueryParams { limit := 5, page := some 1 } = { skip := some 0, limit := 5 } ∧
    getItemsQueryParams { limit := 5, page := some 3 } = { skip := some 10, limit := 5 } ∧
    getItemsQueryParams { limit := 5, page := some 99, skip := some 7 }
      = { skip := some 7, limit := 5 } := by
  refine ⟨?_, ?_, by decide, by decide, by decide⟩
  · intro sk hsk
    simp [getItemsQueryParams, hsk]
  · intro p hsk hp
    simp [getItemsQueryParams, hsk, hp]

/-- Witness for C6: the precedence clauses evaluated at
`{limit: 5, page: 2, skip: 0}` and `{limit: 4, page: 3}`. -/
theorem getItemsQueryParams_spec_witness :
    getItemsQueryParams { limit := 5, page := some 2, skip := some 0 }
      = { skip := some 0, limit := 5 } ∧
    getItemsQueryParams { limit := 4, page := some 3 }
      = { skip := some 8, limit := 4 } :=
  ⟨(getItemsQueryParams_spec { limit := 5, page := some 2, skip := some 0 }).1 0 rfl,
   (getItemsQueryParams_spec { limit := 4, page := some 3 }).2.1 3 rfl rfl⟩

/-- C1: on observing a 401 on an authenticated query, if `isLoggedIn()` holds
the wrapper performs exactly once the sequence invalidate the entry for the
query's key, remove it, then run the logout sequence; afterwards the entry is
absent, `isLoggedIn()` is false and exactly one navigation to the login entry
point was appended.  If `isLoggedIn()` is already false, only the entry is
removed and no logout fires. -/
theorem use401Effect_spec (k : QueryKey) (s : AppState) :
    (isLoggedIn s.storage = true →
      use401Effect k (some 401) s
        = logout { s with cache := removeQueries k (invalidateQueries k s.cache) } ∧
      lookupEntry k (use401Effect k (some 401) s).cache = none ∧
      isLoggedIn (use401Effect k (some 401) s).storage = false ∧
      (use401Effect k (some 401) s).navLog = s.navLog ++ ["/login"]) ∧
    (isLoggedIn s.storage = false →
      use401Effect k (some 401) s = { s with cache := removeQueries k s.cache } ∧
      lookupEntry k (use401Effect k (some 401) s).cache = none ∧
      (use401Effect k (some 401) s).navLog = s.navLog ∧
      isLoggedIn (use401Effect k (some 401) s).storage = false) := by
  constructor
  · intro h
    have heq : use401Effect k (some 401) s
        = logout { s with cache := removeQueries k (invalidateQueries k s.cache) } := by
      simp [use401Effect, h]
    refine ⟨heq, ?_, ?_, ?_⟩
    · rw [heq]
      show lookupEntry k (invalidateQueries usersKeys.current
        (removeQueries k (invalidateQueries k s.cache))) = none
      apply lookupEntry_invalidateQueries_of_none
      rw [lookupEntry_removeQueries]
      simp
    · rw [heq]
      rfl
    · rw [heq]
      rfl
  · intro h
    have heq : use401Effect k (some 401) s = { s with cache := removeQueries k s.cache } := by
      simp [use401Effect, h]
    refine ⟨heq, ?_, ?_, ?_⟩
    · rw [heq]
      show lookupEntry k (removeQueries k s.cache) = none
      exact lookupEntry_removeQueries_self k s.cache
    · rw [heq]
    · rw [heq]
      exact h

/-- Witness for C1: both branches of the 401 reaction evaluated at concrete
states for the key `["items"]`. -/
theorem use401Effect_spec_witness :
    lookupEntry ["items"] (use401Effect ["items"] (some 401) s401Auth).cache = none ∧
    isLoggedIn (use401Effect ["items"] (some 401) s401Auth).storage = false ∧
    (use401Effect ["items"] (some 401) s401Auth).navLog = s401Auth.navLog ++ ["/login"] ∧
    lookupEntry ["items"] (use401Effect ["items"] (some 401) s401Anon).cache = none ∧
    (use401Effect ["items"] (some 401) s401Anon).navLog = s401Anon.navLog :=
  ⟨((use401Effect_spec ["items"] s401Auth).1 (by decide)).2.1,
   ((use401Effect_spec ["items"] s401Auth).1 (by decide)).2.2.1,
   ((use401Effect_spec ["items"] s401Auth).1 (by decide)).2.2.2,
   ((use401Effect_spec ["items"] s401Anon).2 (by decide)).2.1,
   ((use401Effect_spec ["items"] s401Anon).2 (by decide)).2.2.1⟩

/-- C2 counterexample: from an authenticated state whose cache holds a fresh
current-user entry, `logout` leaves that entry present (merely stale), not
absent — the code only invalidates the current-user key, it never removes
it. -/
theorem logout_leaves_current_entry_present :
    lookupEntry usersKeys.current (logout c2StartState).cache = some { stale := true } ∧
    ¬ lookupEntry usersKeys.current (logout c2StartState).cache = none := by
  decide

/-- C2 amended: for every starting state, `logout()` clears the session token,
invalidates the cached current-user entry (marking it stale; the entry remains
present if it existed — it is not removed), navigates to the login entry point
exactly once, and makes no network call. -/
theorem logout_spec (s : AppState) :
    (logout s).storage.authState = none ∧
    isLoggedIn (logout s).storage = false ∧
    (logout s).cache = invalidateQueries usersKeys.current s.cache ∧
    (lookupEntry usersKeys.current (logout s).cache).isSome
      = (lookupEntry usersKeys.current s.cache).isSome ∧
    (logout s).navLog = s.navLog ++ ["/login"] ∧
    (logout s).networkCalls = s.networkCalls := by
  refine ⟨rfl, rfl, rfl, ?_, rfl, rfl⟩
  show (lookupEntry usersKeys.current (invalidateQueries usersKeys.current s.cache)).isSome
    = (lookupEntry usersKeys.current s.cache).isSome
  exact lookupEntry_invalidateQueries_isSome _ _ _

/-- C9: `logout()` is idempotent — calling it when already logged out makes no
network call, does not fail, and leaves the session store and the cache in the
same state as a single `logout`. -/
theorem logout_idempotent (s : AppState) :
    (logout (logout s)).storage = (logout s).storage ∧
    (logout (logout s)).cache = (logout s).cache ∧
    (logout (logout s)).networkCalls = s.networkCalls ∧
    (logout s).networkCalls = s.networkCalls := by
  refine ⟨rfl, ?_, rfl, rfl⟩
  show invalidateQueries usersKeys.current (invalidateQueries usersKeys.current s.cache)
    = invalidateQueries usersKeys.current s.cache
  exact invalidateQueries_idem _ _

/-- C4 counterexample: with the caller-supplied options `{enabled: true}` and
no token present, the query is created enabled and the fetch performs a
network call — the spread `...options` comes after the `enabled: isLoggedIn()`
default and overrides the gate. -/
theorem enabled_override_counterexample :
    isLoggedIn c4StartState.storage = false ∧
    resolvedEnabled overrideEnabledOpts c4StartState.storage = true ∧
    (runQueryFetch overrideEnabledOpts c4StartState).networkCalls
      = c4StartState.networkCalls + 1 := by
  decide

/-- C4 amended: when the caller does not supply `enabled`, the query built by
`useCustomQuery` is enabled exactly while `isLoggedIn()` is true; with the
token absent it is disabled, so no network call runs and no cached value is
updated.  A caller-supplied `enabled` overrides this gate because `...options`
is spread after the defaults. -/
theorem enabled_gate_default_spec (opts : CustomQueryOptions) (s : AppState)
    (h : opts.enabled = none) :
    resolvedEnabled opts s.storage = isLoggedIn s.storage ∧
    (isLoggedIn s.storage = false → runQueryFetch opts s = s) := by
  constructor
  · simp [resolvedEnabled, h]
  · intro hl
    simp [runQueryFetch, resolvedEnabled, h, hl]

/-- Witness for C4 amended: the gate evaluated for an options object without
`enabled` in an unauthenticated state. -/
theorem enabled_gate_default_spec_witness :
    resolvedEnabled gatedOpts c4StartState.storage = isLoggedIn c4StartState.storage ∧
    runQueryFetch gatedOpts c4StartState = c4StartState :=
  ⟨(enabled_gate_default_spec gatedOpts c4StartState rfl).1,
   (enabled_gate_default_spec gatedOpts c4StartState rfl).2 (by decide)⟩

/-- C7: for every failed login attempt, the whole application state (token,
cache, navigation log) is unchanged and the controller's error field is set to
the extracted message — the body's `detail` string, the transport message for
an `AxiosError`, and the generic `"Something went wrong"` whenever the
extracted detail is an array — and `resetError()` clears it. -/
theorem loginMutationOnError_spec (e : LoginErr) (st : AuthHookState) :
    (loginMutationOnError e st).app = st.app ∧
    (loginMutationOnError e st).app.storage = st.app.storage ∧
    (loginMutationOnError e st).app.navLog = st.app.navLog ∧
    (loginMutationOnError e st).error = some (extractLoginErrDetail e) ∧
    (∀ s, extractLoginErrDetail (.api (.str s)) = s) ∧
    (∀ m, extractLoginErrDetail (.axios m) = m) ∧
    (∀ items, extractLoginErrDetail (.api (.arr items)) = "Something went wrong") ∧
    (resetError (loginMutationOnError e st)).error = none :=
  ⟨rfl, rfl, rfl, rfl, fun _ => rfl, fun _ => rfl, fun _ => rfl, rfl⟩

/-- C8 counterexample: the object `useCustomQuery` returns
(`{ error, ...query, invalidate }`) exposes `invalidate` but does not contain
`remove` — `remove` is defined inside the hook and used only by the internal
401 reaction. -/
theorem useCustomQuery_remove_not_returned :
    "invalidate" ∈ useCustomQueryReturnKeys ∧ "remove" ∉ useCustomQueryReturnKeys := by
  decide

/-- C8 amended: the wrapper's returned value exposes the read result (`data`,
`isLoading`, `isError`, `error`) and `invalidate()` — which marks the entry
for the query's key stale while keeping it present — but not `remove()`; the
internal `remove()` drops all cached state for the key and serves only the
automatic 401 reaction. -/
theorem useCustomQuery_exposed_operations (opts : CustomQueryOptions) (s : AppState) :
    "data" ∈ useCustomQueryReturnKeys ∧
    "isLoading" ∈ useCustomQueryReturnKeys ∧
    "isError" ∈ useCustomQueryReturnKeys ∧
    "error" ∈ useCustomQueryReturnKeys ∧
    "invalidate" ∈ useCustomQueryReturnKeys ∧
    "remove" ∉ useCustomQueryReturnKeys ∧
    (lookupEntry opts.queryKey (wrapperInvalidate opts s).cache).isSome
      = (lookupEntry opts.queryKey s.cache).isSome ∧
    (∀ e, lookupEntry opts.queryKey s.cache = some e →
      lookupEntry opts.queryKey (wrapperInvalidate opts s).cache
        = some { e with stale := true }) ∧
    lookupEntry opts.queryKey (wrapperRemove opts s).cache = none := by
  refine ⟨by decide, by decide, by decide, by decide, by decide, by decide, ?_, ?_, ?_⟩
  · exact lookupEntry_invalidateQueries_isSome _ _ _
  · intro e he
    exact lookupEntry_invalidateQueries_self _ _ _ he
  · exact lookupEntry_removeQueries_self _ _

/-- Witness for C8 amended: the exposed `invalidate` evaluated on a cached
fresh entry for `["items"]`. -/
theorem useCustomQuery_exposed_operations_witness :
    lookupEntry ["items"] (wrapperInvalidate gatedOpts s401Auth).cache
      = some { stale := true } :=
  (useCustomQuery_exposed_operations gatedOpts s401Auth).2.2.2.2.2.2.2.1
    { stale := false } (by decide)

end FrontendAuth
